import Mathlib

/-
Verification development for the EchoNote application: a browser speech-to-text
capture screen that sends the accumulated transcript to a remote text-generation
endpoint and persists transcript/response pairs in a remote record store, plus a
History screen that lists, shows, copies and deletes the persisted records.

The definitions below are a shallow embedding of the TypeScript source:
  - the capture screen component (App): recognition onresult handler,
    processWithGemini, clearAll, copyToClipboard;
  - the History screen component (HistoryPage): fetchRecords, deleteRecord,
    copyToClipboard, and the render-time display modes.
External effects (the generation HTTP call, the record-store operations, the
clipboard) are passed in as explicit outcome parameters, and the network calls
an action issues are returned as an explicit list.
-/

namespace EchoNote

/-- Embedding of the JavaScript string trim operation (strip whitespace from
both ends), written over the character list so that it evaluates by kernel
reduction. The source uses trim only through truthiness tests such as
transcript.trim() being empty or not. -/
def jsTrim (s : String) : String :=
  String.mk (((s.data.dropWhile Char.isWhitespace).reverse.dropWhile
    Char.isWhitespace).reverse)

/-- Concatenation of a list of strings in order; the spec-side notion of
"the concatenation, in arrival order" of segment texts. -/
def concatList : List String → String
  | [] => ""
  | a :: rest => a ++ concatList rest

/-! ## Speech capture model

One entry of the platform results collection: whether it is marked final, and
its top transcript candidate (the source reads result[0].transcript). -/

structure SpeechResult where
  isFinal : Bool
  topTranscript : String
  deriving DecidableEq

/-- One recognition result event: the reported start index into the results
collection, and the results collection itself. -/
structure SpeechEvent where
  resultIndex : Nat
  results : List SpeechResult
  deriving DecidableEq

/-- The loop body of the onresult handler: starting from the empty string,
scan the entries from the event's resultIndex to the end and append the top
transcript candidate plus a space for every entry marked final. -/
def finalEventLoop (e : SpeechEvent) : String :=
  (e.results.drop e.resultIndex).foldl
    (fun acc r => if r.isFinal then acc ++ r.topTranscript ++ " " else acc) ""

/-- The recognition onresult handler: compute the finalTranscript of the event
and, when it is non-empty, append it to the previous transcript. -/
def onresult (prev : String) (e : SpeechEvent) : String :=
  if finalEventLoop e = "" then prev else prev ++ finalEventLoop e

/-- Spec-side description of one event's contribution: the concatenation of
the top transcript candidates of the final entries in the scanned range, each
followed by one space. -/
def eventFinalText (e : SpeechEvent) : String :=
  concatList (((e.results.drop e.resultIndex).filter (fun r => r.isFinal)).map
    (fun r => r.topTranscript ++ " "))

/-- Folding the onresult handler over a sequence of recognition events. -/
def runRecognition (prev : String) (events : List SpeechEvent) : String :=
  events.foldl onresult prev

/-! ## Generation response envelope

Shape of the endpoint's response envelope as the source reads it:
data.candidates?.[0]?.content?.parts?.[0]?.text, where every step of the
optional chain may be structurally absent. -/

structure GenPart where
  text : Option String
  deriving DecidableEq

structure GenContent where
  parts : List GenPart
  deriving DecidableEq

structure GenCandidate where
  content : Option GenContent
  deriving DecidableEq

structure GenEnvelope where
  candidates : List GenCandidate
  deriving DecidableEq

/-- The optional chain candidates?.[0]?.content?.parts?.[0]?.text: the text of
the first candidate's first content part, when every step is present. -/
def firstCandidateText (env : GenEnvelope) : Option String :=
  match env.candidates.head? with
  | none => none
  | some c =>
      match c.content with
      | none => none
      | some ct =>
          match ct.parts.head? with
          | none => none
          | some p => p.text

/-- The extracted generated text. The source applies the JavaScript or-else
operator to the optional chain, so the fallback fires both when the chain is
structurally absent and when the extracted text is the empty string (a falsy
value). -/
def extractGeneratedText (env : GenEnvelope) : String :=
  match firstCandidateText env with
  | some t => if t = "" then "No response generated" else t
  | none => "No response generated"

/-! ## Capture screen (App) -/

namespace App

/-- The transient state held by the capture screen component. -/
structure State where
  isListening : Bool
  transcript : String
  geminiResponse : String
  isProcessing : Bool
  error : String
  copied : Bool
  geminiApiKey : String
  customPrompt : String
  deriving DecidableEq

/-- Commands issued to the platform recognition object. -/
inductive SpeechCmd where
  | start : SpeechCmd
  | stop : SpeechCmd
  deriving DecidableEq

/-- Network calls an action can issue: the generation request (with its single
combined text block and the key credential), and the record-store insert of a
transcript/response pair. -/
inductive NetCall where
  | generate (body : String) (key : String) : NetCall
  | insertRecord (transcript : String) (response : String) : NetCall
  deriving DecidableEq

/-- The fixed default analysis instruction used when no custom prompt is
supplied, including the separator that precedes the transcript in the
template literal. -/
def defaultInstruction : String :=
  "Please analyze and improve the following text. Provide a summary, correct any grammar issues, and suggest improvements:\n\n"

/-- The single combined text block of the generation request body: the custom
prompt, a blank-line separator, and the transcript when the trimmed custom
prompt is non-empty; the default instruction followed by the transcript
otherwise. -/
def requestText (customPrompt transcript : String) : String :=
  if jsTrim customPrompt ≠ "" then customPrompt ++ "\n\n" ++ transcript
  else defaultInstruction ++ transcript

/-- The analyze action. The generation call's outcome is the genResult
parameter: an error message when the transport fails or the endpoint returns a
non-success status (the message the catch block would display), or the parsed
response envelope on success. The record-store insert reports failure through
its returned error value (insertError); the source awaits the insert without
inspecting that value. The returned list records the network calls issued, in
order. -/
def processWithGemini (s : State) (genResult : Except String GenEnvelope)
    (insertError : Option String) : State × List NetCall :=
  if jsTrim s.transcript = "" then
    ({ s with error := "Please record some speech first" }, [])
  else if jsTrim s.geminiApiKey = "" then
    ({ s with error := "Please enter your Gemini API key" }, [])
  else
    let body := requestText s.customPrompt s.transcript
    let cleared : State := { s with isProcessing := true, error := "", geminiResponse := "" }
    match genResult with
    | Except.error msg =>
        ({ cleared with error := msg, isProcessing := false },
          [NetCall.generate body s.geminiApiKey])
    | Except.ok env =>
        let generatedText := extractGeneratedText env
        ({ cleared with geminiResponse := generatedText, isProcessing := false },
          [NetCall.generate body s.geminiApiKey,
            NetCall.insertRecord s.transcript generatedText])

/-- The microphone toggle: stop when listening, otherwise clear the error and
start; included to make the recognition-command effect model meaningful. -/
def toggleListening (s : State) (hasRecognition : Bool) : State × List SpeechCmd :=
  if !hasRecognition then (s, [])
  else if s.isListening then ({ s with isListening := false }, [SpeechCmd.stop])
  else ({ s with isListening := true, error := "" }, [SpeechCmd.start])

/-- The Clear action: reset transcript, response, error, copied flag and custom
prompt; it interacts with the recognition object in no way, so it issues no
recognition command. -/
def clearAll (s : State) : State × List SpeechCmd :=
  ({ s with
      transcript := ""
      geminiResponse := ""
      error := ""
      copied := false
      customPrompt := "" }, [])

end App

/-! ## History screen -/

/-- The persisted record shape read back from the store. -/
structure SpeechRecord where
  id : String
  transcript : String
  geminiResponse : String
  createdAt : String
  title : Option String
  deriving DecidableEq

/-- A failure value returned or thrown by a record-store operation: its message
and whether the thrown value is an instance of the platform Error class (the
catch blocks test that before using the message). -/
structure StoreErr where
  message : String
  isErrorObj : Bool
  deriving DecidableEq

/-- The human-readable string a catch block derives from a store failure:
the failure's own message when it is an Error instance, a fixed fallback
otherwise. -/
def errMessage (e : StoreErr) (fallback : String) : String :=
  if e.isErrorObj then e.message else fallback

namespace History

/-- The state held by the History screen component. The copied field holds the
key of the single target currently showing a copy confirmation, if any. -/
structure State where
  records : List SpeechRecord
  isLoading : Bool
  error : String
  copied : Option String
  selectedRecord : Option SpeechRecord
  deriving DecidableEq

/-- State on mount, before the initial fetch resolves. -/
def initialState : State :=
  { records := [], isLoading := true, error := "", copied := none,
    selectedRecord := none }

/-- The fetch on mount: on success replace the records with the returned data
(empty when the store returns no data), on failure set the error message;
either way loading ends. A fetch failure leaves the records untouched. -/
def fetchRecords (s : State) (result : Except StoreErr (Option (List SpeechRecord))) :
    State :=
  match result with
  | Except.ok data => { s with isLoading := false, records := data.getD [] }
  | Except.error e =>
      { s with isLoading := false, error := errMessage e ("Failed to load history") }

/-- The delete action for a given id, with the store operation's outcome as a
parameter. On success, keep only the records whose id differs and dismiss the
detail view when the selected record carried that id; on failure, only set the
error message. -/
def deleteRecord (s : State) (result : Option StoreErr) (rid : String) : State :=
  match result with
  | some e => { s with error := errMessage e ("Failed to delete record") }
  | none =>
      { s with
          records := s.records.filter (fun r => r.id != rid)
          selectedRecord :=
            if s.selectedRecord.map SpeechRecord.id = some rid then none
            else s.selectedRecord }

/-- The copy action, keyed by the target's key string: on clipboard success
record that key as the one showing a confirmation, on failure set the error. -/
def copyToClipboard (s : State) (clipboardOk : Bool) (text rkey : String) : State :=
  if clipboardOk then { s with copied := some rkey }
  else { s with error := "Failed to copy to clipboard" }

/-- The delayed revert scheduled two seconds after a successful copy. -/
def copyTimeout (s : State) : State := { s with copied := none }

/-- The copy-target key of a record's transcript in the detail view. -/
def transcriptKey (rid : String) : String := "transcript-" ++ rid

/-- The copy-target key of a record's response in the detail view. -/
def responseKey (rid : String) : String := "response-" ++ rid

/-- Whether the target with the given key shows its copy confirmation: the
render compares the copied state against each target's key. -/
def showsCopied (s : State) (rkey : String) : Bool :=
  s.copied == some rkey

/-- The detail view is shown exactly when a record is selected. -/
def showsDetail (s : State) : Bool := s.selectedRecord.isSome

/-- The list view renders the error banner whenever the error message is
non-empty, independently of the loading/empty/list switch. -/
def showsError (s : State) : Bool :=
  s.selectedRecord.isNone && (s.error != "")

/-- The list view shows the loading spinner while the fetch is in flight. -/
def showsLoading (s : State) : Bool :=
  s.selectedRecord.isNone && s.isLoading

/-- The list view shows the empty-list message when loading is over and there
are no records. -/
def showsEmpty (s : State) : Bool :=
  s.selectedRecord.isNone && !s.isLoading && s.records.isEmpty

/-- The list view shows the populated record list when loading is over and
records exist. -/
def showsList (s : State) : Bool :=
  s.selectedRecord.isNone && !s.isLoading && !s.records.isEmpty

end History

/-! ## Concrete example values used by witnesses and counterexamples -/

/-- A capture-screen state with everything empty or off. -/
def baseState : App.State :=
  { isListening := false, transcript := "", geminiResponse := "",
    isProcessing := false, error := "", copied := false, geminiApiKey := "",
    customPrompt := "" }

/-- Capture state with a custom prompt and transcript for the request-body
example. -/
def c2State : App.State :=
  { baseState with
      transcript := "Meet on June 1"
      geminiApiKey := "demo-key"
      customPrompt := "Extract dates" }

/-- Capture state whose transcript is whitespace-only. -/
def wsState : App.State :=
  { baseState with transcript := "   ", geminiApiKey := "demo-key" }

/-- Capture state with a transcript but a whitespace-only API key. -/
def noKeyState : App.State :=
  { baseState with transcript := "hello world", geminiApiKey := "  " }

/-- Capture state ready for a full analyze round trip. -/
def readyState : App.State :=
  { baseState with transcript := "hello world", geminiApiKey := "demo-key" }

/-- A response envelope whose first candidate carries the text Summary ok. -/
def okEnv : GenEnvelope :=
  { candidates := [{ content := some { parts := [{ text := some ("Summary ok") }] } }] }

/-- A response envelope whose first candidate's first part carries the empty
string as its text: the field is structurally present but falsy. -/
def emptyTextEnv : GenEnvelope :=
  { candidates := [{ content := some { parts := [{ text := some ("") }] } }] }

/-- A response envelope with no candidates at all. -/
def bareEnv : GenEnvelope := { candidates := [] }

/-- A persisted record with id r1. -/
def rec1 : SpeechRecord :=
  { id := "r1", transcript := "hello", geminiResponse := "resp one",
    createdAt := "2026-01-01", title := none }

/-- A persisted record with id r2. -/
def rec2 : SpeechRecord :=
  { id := "r2", transcript := "bye", geminiResponse := "resp two",
    createdAt := "2026-01-02", title := some ("Second") }

/-- A History state listing two records with the first one open in detail. -/
def twoRecordState : History.State :=
  { records := [rec1, rec2], isLoading := false, error := "", copied := none,
    selectedRecord := some rec1 }

/-- A History state in which the response target of record r1 currently shows
its copy confirmation. -/
def preCopyState : History.State :=
  { twoRecordState with copied := some (History.responseKey ("r1")) }

/-- A store failure thrown as a plain object, not an Error instance. -/
def plainErr : StoreErr :=
  { message := "row level security violation", isErrorObj := false }

/-- A store failure thrown as a genuine Error instance. -/
def realErr : StoreErr := { message := "network down", isErrorObj := true }

/-! ## Theorems -/

theorem finalEventLoop_go (rs : List SpeechResult) (acc : String) :
    rs.foldl (fun a r => if r.isFinal then a ++ r.topTranscript ++ " " else a) acc
      = acc ++ concatList ((rs.filter (fun r => r.isFinal)).map
          (fun r => r.topTranscript ++ " ")) := by
  induction rs generalizing acc with
  | nil => simp [concatList, String.append_empty]
  | cons r rest ih =>
      cases hr : r.isFinal with
      | true =>
          simp only [List.foldl_cons, hr, if_true, List.filter_cons, List.map_cons, ih,
            concatList]
          simp only [String.append_assoc]
      | false =>
          simp only [List.foldl_cons, hr, if_false, List.filter_cons, ih]
          simp [hr]

theorem onresult_eq (prev : String) (e : SpeechEvent) :
    onresult prev e = prev ++ eventFinalText e := by
  have hloop : finalEventLoop e = eventFinalText e := by
    unfold finalEventLoop eventFinalText
    rw [finalEventLoop_go, String.empty_append]
  unfold onresult
  rw [hloop]
  by_cases h : eventFinalText e = ""
  · rw [if_pos h, h, String.append_empty]
  · rw [if_neg h]

/-- Claim C1: for every sequence of recognition result events, the accumulated
transcript equals the previous transcript followed by the concatenation, in
arrival order, of the top transcript candidate of each entry marked final
(scanning only from each event's reported start index to the end of its results
collection), each followed by exactly one trailing space; entries not marked
final contribute nothing. -/
theorem transcript_accumulates_final_entries (prev : String)
    (events : List SpeechEvent) :
    runRecognition prev events = prev ++ concatList (events.map eventFinalText) := by
  induction events generalizing prev with
  | nil => simp [runRecognition, concatList, String.append_empty]
  | cons e rest ih =>
      unfold runRecognition at ih ⊢
      rw [List.foldl_cons, ih, onresult_eq, List.map_cons, String.append_assoc]
      rfl

/-- Claim C2: with non-blank transcript and key, the single text block of the
generation request equals customPrompt, a blank-line separator, and the
transcript when a (non-blank) custom prompt was supplied, and the fixed default
instruction concatenated with the transcript when the custom prompt is blank. -/
theorem generation_request_body (s : App.State) (genResult : Except String GenEnvelope)
    (insertError : Option String)
    (hT : jsTrim s.transcript ≠ "") (hK : jsTrim s.geminiApiKey ≠ "") :
    (App.processWithGemini s genResult insertError).2.head?
        = some (App.NetCall.generate (App.requestText s.customPrompt s.transcript)
            s.geminiApiKey) ∧
    (jsTrim s.customPrompt ≠ "" →
      App.requestText s.customPrompt s.transcript
        = s.customPrompt ++ "\n\n" ++ s.transcript) ∧
    (jsTrim s.customPrompt = "" →
      App.requestText s.customPrompt s.transcript
        = App.defaultInstruction ++ s.transcript) := by
  refine ⟨?_, ?_, ?_⟩
  · simp only [App.processWithGemini, if_neg hT, if_neg hK]
    cases genResult <;> rfl
  · intro h
    simp only [App.requestText, if_pos h]
  · intro h
    have hn : ¬ (jsTrim s.customPrompt ≠ "") := by simp [h]
    simp only [App.requestText, if_neg hn]

theorem generation_request_body_witness :
    jsTrim (c2State.transcript) ≠ "" ∧ jsTrim (c2State.geminiApiKey) ≠ "" ∧
    (App.processWithGemini c2State (Except.error ("boom")) none).2.head?
      = some (App.NetCall.generate ("Extract dates\n\nMeet on June 1") ("demo-key")) := by
  have h := generation_request_body c2State (Except.error ("boom")) none
    (by decide) (by decide)
  have hbody : App.requestText c2State.customPrompt c2State.transcript
      = "Extract dates\n\nMeet on June 1" := by decide
  refine ⟨by decide, by decide, ?_⟩
  rw [h.1, hbody]
  rfl

/-- Claim C3: with an empty or whitespace-only transcript the analyze action
issues no network call and sets the record-some-speech-first message; with a
non-blank transcript but blank API key it issues no network call and sets the
enter-your-API-key message. -/
theorem analyze_guards (s : App.State) (genResult : Except String GenEnvelope)
    (insertError : Option String) :
    (jsTrim s.transcript = "" →
      App.processWithGemini s genResult insertError
        = ({ s with error := "Please record some speech first" }, [])) ∧
    (jsTrim s.transcript ≠ "" → jsTrim s.geminiApiKey = "" →
      App.processWithGemini s genResult insertError
        = ({ s with error := "Please enter your Gemini API key" }, [])) := by
  constructor
  · intro h
    simp only [App.processWithGemini, if_pos h]
  · intro h1 h2
    simp only [App.processWithGemini, if_neg h1, if_pos h2]

theorem analyze_guards_witness :
    jsTrim (wsState.transcript) = "" ∧
    App.processWithGemini wsState (Except.error ("x")) none
      = ({ wsState with error := "Please record some speech first" }, []) ∧
    jsTrim (noKeyState.transcript) ≠ "" ∧ jsTrim (noKeyState.geminiApiKey) = "" ∧
    App.processWithGemini noKeyState (Except.error ("x")) none
      = ({ noKeyState with error := "Please enter your Gemini API key" }, []) := by
  refine ⟨by decide,
    (analyze_guards wsState (Except.error ("x")) none).1 (by decide),
    by decide, by decide,
    (analyze_guards noKeyState (Except.error ("x")) none).2 (by decide) (by decide)⟩

/-- Claim C8: the Clear action sets exactly the transcript, response, error,
copied flag and custom prompt to their empty values, leaves the listening flag,
processing flag and API key unchanged, and issues no recognition command. -/
theorem clearAll_resets_exactly (s : App.State) :
    (App.clearAll s).1.transcript = "" ∧
    (App.clearAll s).1.geminiResponse = "" ∧
    (App.clearAll s).1.error = "" ∧
    (App.clearAll s).1.copied = false ∧
    (App.clearAll s).1.customPrompt = "" ∧
    (App.clearAll s).1.isListening = s.isListening ∧
    (App.clearAll s).1.geminiApiKey = s.geminiApiKey ∧
    (App.clearAll s).1.isProcessing = s.isProcessing ∧
    (App.clearAll s).2 = [] :=
  ⟨rfl, rfl, rfl, rfl, rfl, rfl, rfl, rfl, rfl⟩

/-- Claim C10: when the store delete reports an error, the records list, the
selection and the rest of the screen state are unchanged and the error message
is set to the human-readable failure string (the failure's own message when it
is an Error instance, the fixed fallback otherwise). -/
theorem delete_failure_preserves_state (s : History.State) (e : StoreErr)
    (rid : String) :
    (History.deleteRecord s (some e) rid).records = s.records ∧
    (History.deleteRecord s (some e) rid).selectedRecord = s.selectedRecord ∧
    (History.deleteRecord s (some e) rid).copied = s.copied ∧
    (History.deleteRecord s (some e) rid).isLoading = s.isLoading ∧
    (History.deleteRecord s (some e) rid).error
      = errMessage e ("Failed to delete record") ∧
    (e.isErrorObj = false →
      (History.deleteRecord s (some e) rid).error = "Failed to delete record") := by
  refine ⟨rfl, rfl, rfl, rfl, rfl, ?_⟩
  intro h
  simp [History.deleteRecord, errMessage, h]

theorem delete_failure_preserves_state_witness :
    plainErr.isErrorObj = false ∧
    (History.deleteRecord twoRecordState (some plainErr) ("r1")).records
      = twoRecordState.records ∧
    (History.deleteRecord twoRecordState (some plainErr) ("r1")).selectedRecord
      = twoRecordState.selectedRecord ∧
    (History.deleteRecord twoRecordState (some plainErr) ("r1")).error
      = "Failed to delete record" := by
  have h := delete_failure_preserves_state twoRecordState plainErr ("r1")
  exact ⟨rfl, h.1, h.2.1, h.2.2.2.2.2 rfl⟩

/-- Claim C4, counterexample: with a successful generation and a failing store
insert, the generated response stays displayed but the screen error remains
empty — no visible error message reports the insert failure, because the
insert's returned error value is never inspected. -/
theorem insert_failure_silent_cex :
    (App.processWithGemini readyState (Except.ok okEnv)
        (some ("insert failed"))).1.geminiResponse = "Summary ok" ∧
    (App.processWithGemini readyState (Except.ok okEnv)
        (some ("insert failed"))).1.error = "" := by
  decide

/-- Claim C4, amended: when the generation request succeeds, the generated
response remains displayed whatever the insert outcome, and the analyze action's
result does not depend on the insert outcome at all — an insert failure is
silently discarded and the error stays cleared rather than reporting it. -/
theorem insert_failure_amended (s : App.State) (env : GenEnvelope)
    (insertError : Option String)
    (hT : jsTrim s.transcript ≠ "") (hK : jsTrim s.geminiApiKey ≠ "") :
    (App.processWithGemini s (Except.ok env) insertError).1.geminiResponse
      = extractGeneratedText env ∧
    (App.processWithGemini s (Except.ok env) insertError).1.error = "" ∧
    App.processWithGemini s (Except.ok env) insertError
      = App.processWithGemini s (Except.ok env) none := by
  refine ⟨?_, ?_, rfl⟩ <;> simp only [App.processWithGemini, if_neg hT, if_neg hK]

theorem insert_failure_amended_witness :
    jsTrim (readyState.transcript) ≠ "" ∧ jsTrim (readyState.geminiApiKey) ≠ "" ∧
    (App.processWithGemini readyState (Except.ok okEnv)
        (some ("insert failed"))).1.geminiResponse = extractGeneratedText okEnv ∧
    (App.processWithGemini readyState (Except.ok okEnv)
        (some ("insert failed"))).1.error = "" ∧
    App.processWithGemini readyState (Except.ok okEnv) (some ("insert failed"))
      = App.processWithGemini readyState (Except.ok okEnv) none := by
  have h := insert_failure_amended readyState okEnv (some ("insert failed"))
    (by decide) (by decide)
  exact ⟨by decide, by decide, h.1, h.2.1, h.2.2⟩

/-- Claim C6, counterexample: an envelope whose first candidate's first part
carries the empty string has that text field structurally present, yet the
displayed response is the placeholder, not that text — the or-else fallback
fires on the falsy empty string, not only on structural absence. -/
theorem empty_candidate_text_cex :
    firstCandidateText emptyTextEnv = some ("") ∧
    extractGeneratedText emptyTextEnv = "No response generated" ∧
    (App.processWithGemini readyState (Except.ok emptyTextEnv)
        none).1.geminiResponse = "No response generated" ∧
    ("No response generated" : String) ≠ "" := by
  decide

/-- Claim C6, amended: displayed response and the stored gemini response value
both equal the extracted text, which is the first candidate's first content
part's text when that text is present and non-empty, and the fixed placeholder
when it is structurally absent or the empty string; the operation never fails. -/
theorem generated_text_extraction (s : App.State) (env : GenEnvelope)
    (insertError : Option String)
    (hT : jsTrim s.transcript ≠ "") (hK : jsTrim s.geminiApiKey ≠ "") :
    (App.processWithGemini s (Except.ok env) insertError).1.geminiResponse
      = extractGeneratedText env ∧
    (App.processWithGemini s (Except.ok env) insertError).2
      = [App.NetCall.generate (App.requestText s.customPrompt s.transcript)
            s.geminiApiKey,
          App.NetCall.insertRecord s.transcript (extractGeneratedText env)] ∧
    (∀ t, firstCandidateText env = some t → t ≠ "" →
      extractGeneratedText env = t) ∧
    (firstCandidateText env = none →
      extractGeneratedText env = "No response generated") ∧
    (firstCandidateText env = some ("") →
      extractGeneratedText env = "No response generated") := by
  refine ⟨?_, ?_, ?_, ?_, ?_⟩
  · simp only [App.processWithGemini, if_neg hT, if_neg hK]
  · simp only [App.processWithGemini, if_neg hT, if_neg hK]
  · intro t ht hne
    unfold extractGeneratedText
    rw [ht]
    simp [hne]
  · intro h
    unfold extractGeneratedText
    rw [h]
  · intro h
    unfold extractGeneratedText
    rw [h]
    simp

theorem generated_text_extraction_witness :
    jsTrim (readyState.transcript) ≠ "" ∧ jsTrim (readyState.geminiApiKey) ≠ "" ∧
    firstCandidateText okEnv = some ("Summary ok") ∧
    (App.processWithGemini readyState (Except.ok okEnv) none).1.geminiResponse
      = "Summary ok" ∧
    (App.processWithGemini readyState (Except.ok okEnv) none).2
      = [App.NetCall.generate
            (App.requestText readyState.customPrompt readyState.transcript)
            ("demo-key"),
          App.NetCall.insertRecord ("hello world") ("Summary ok")] := by
  have h := generated_text_extraction readyState okEnv none (by decide) (by decide)
  refine ⟨by decide, by decide, by decide, ?_, ?_⟩
  · rw [h.1]
    decide
  · rw [h.2.1]
    decide

/-- Claim C5, counterexample: in the detail view of record r1, the response
target's confirmation is showing; copying the transcript target then clears it
— performing a copy on one target does not leave the other target's
confirmation state unchanged, because a single key holds the one confirmation. -/
theorem copy_confirmation_interference_cex :
    History.showsCopied preCopyState (History.responseKey ("r1")) = true ∧
    History.showsCopied
      (History.copyToClipboard preCopyState true ("hello")
        (History.transcriptKey ("r1")))
      (History.responseKey ("r1")) = false := by
  decide

/-- Claim C5, amended: a successful copy on one target shows the confirmation
on exactly that target; every other target shows none afterwards — a target
that was not showing a confirmation is unaffected, but a target whose
confirmation was showing has it cleared rather than left unchanged. -/
theorem copy_confirmation_amended (s : History.State) (text k j : String)
    (h : j ≠ k) :
    History.showsCopied (History.copyToClipboard s true text k) k = true ∧
    History.showsCopied (History.copyToClipboard s true text k) j = false ∧
    (s.copied ≠ some j →
      History.showsCopied (History.copyToClipboard s true text k) j
        = History.showsCopied s j) := by
  have hkj : ((some k : Option String) == some j) = false := by
    rw [beq_eq_false_iff_ne]
    exact fun hh => h (Option.some.inj hh).symm
  refine ⟨?_, ?_, ?_⟩
  · simp [History.showsCopied, History.copyToClipboard]
  · simp only [History.showsCopied, History.copyToClipboard, if_true]
    exact hkj
  · intro hne
    have hsj : (s.copied == some j) = false := by
      rw [beq_eq_false_iff_ne]
      exact hne
    simp only [History.showsCopied, History.copyToClipboard, if_true]
    rw [hkj, hsj]

theorem copy_confirmation_amended_witness :
    (History.responseKey ("r1")) ≠ (History.transcriptKey ("r1")) ∧
    History.showsCopied
      (History.copyToClipboard twoRecordState true ("hello")
        (History.transcriptKey ("r1")))
      (History.transcriptKey ("r1")) = true ∧
    History.showsCopied
      (History.copyToClipboard twoRecordState true ("hello")
        (History.transcriptKey ("r1")))
      (History.responseKey ("r1")) = false := by
  have h := copy_confirmation_amended twoRecordState ("hello")
    (History.transcriptKey ("r1")) (History.responseKey ("r1")) (by decide)
  exact ⟨by decide, h.1, h.2.1⟩

theorem filter_ne_of_nodup (l : List SpeechRecord) (rid : String)
    (r₀ : SpeechRecord) (hnd : (l.map SpeechRecord.id).Nodup)
    (hmem : r₀ ∈ l) (hid : r₀.id = rid) :
    ∃ l₁ l₂, l = l₁ ++ r₀ :: l₂ ∧ l.filter (fun r => r.id != rid) = l₁ ++ l₂ := by
  induction l with
  | nil => cases hmem
  | cons a t ih =>
      rw [List.map_cons, List.nodup_cons] at hnd
      rcases List.mem_cons.mp hmem with heq | hmem2
      · refine ⟨[], t, by rw [heq]; rfl, ?_⟩
        rw [List.filter_cons]
        have ha : (a.id != rid) = false := by
          rw [bne_eq_false_iff_eq]
          rw [← heq, hid]
        rw [ha]
        simp only [Bool.false_eq_true, if_false, List.nil_append]
        rw [List.filter_eq_self]
        intro x hx
        rw [bne_iff_ne]
        intro hxid
        have hax : a.id = x.id := by rw [← heq, hid, hxid]
        exact hnd.1 (hax ▸ List.mem_map_of_mem SpeechRecord.id hx)
      · have haid : (a.id != rid) = true := by
          rw [bne_iff_ne]
          intro hh
          exact hnd.1 (by rw [hh, ← hid]; exact List.mem_map_of_mem SpeechRecord.id hmem2)
        obtain ⟨l₁, l₂, he, hf⟩ := ih hnd.2 hmem2
        refine ⟨a :: l₁, l₂, by rw [List.cons_append, ← he], ?_⟩
        rw [List.filter_cons, haid]
        simp only [if_true, List.cons_append]
        rw [hf]

/-- Claim C7: when record ids are pairwise distinct, a successful delete of an
id present in the list removes exactly that record, keeping every other record
in order; if the deleted record was the selected one the detail view is
dismissed, and deleting a non-selected record leaves the selection unchanged. -/
theorem delete_removes_exactly (s : History.State) (rid : String)
    (r₀ : SpeechRecord) (hnd : (s.records.map SpeechRecord.id).Nodup)
    (hmem : r₀ ∈ s.records) (hid : r₀.id = rid) :
    (∃ l₁ l₂, s.records = l₁ ++ r₀ :: l₂ ∧
      (History.deleteRecord s none rid).records = l₁ ++ l₂) ∧
    (∀ rsel, s.selectedRecord = some rsel → rsel.id = rid →
      (History.deleteRecord s none rid).selectedRecord = none) ∧
    (∀ rsel, s.selectedRecord = some rsel → rsel.id ≠ rid →
      (History.deleteRecord s none rid).selectedRecord = s.selectedRecord) ∧
    (s.selectedRecord = none →
      (History.deleteRecord s none rid).selectedRecord = none) := by
  refine ⟨?_, ?_, ?_, ?_⟩
  · exact filter_ne_of_nodup s.records rid r₀ hnd hmem hid
  · intro rsel hsel hrid
    simp [History.deleteRecord, hsel, hrid]
  · intro rsel hsel hrid
    simp [History.deleteRecord, hsel, hrid]
  · intro hsel
    simp [History.deleteRecord, hsel]

theorem delete_removes_exactly_witness :
    (twoRecordState.records.map SpeechRecord.id).Nodup ∧
    rec1 ∈ twoRecordState.records ∧ rec2 ∈ twoRecordState.records ∧
    (History.deleteRecord twoRecordState none ("r1")).records = [rec2] ∧
    (History.deleteRecord twoRecordState none ("r1")).selectedRecord = none ∧
    (History.deleteRecord twoRecordState none ("r2")).records = [rec1] ∧
    (History.deleteRecord twoRecordState none ("r2")).selectedRecord
      = some rec1 := by
  have h1 := delete_removes_exactly twoRecordState ("r1") rec1 (by decide)
    (by decide) rfl
  have h2 := delete_removes_exactly twoRecordState ("r2") rec2 (by decide)
    (by decide) rfl
  refine ⟨by decide, by decide, by decide, by decide, ?_, by decide, ?_⟩
  · exact h1.2.1 rec1 rfl rfl
  · exact h2.2.2.1 rec1 rfl (by decide)

/-- Claim C9, counterexample: after a failed initial fetch, the History list
view shows the error display and the empty-list message at the same time — the
error banner renders independently of the loading/empty/list switch, so the
three are not mutually exclusive. -/
theorem failed_fetch_overlap_cex :
    History.showsError
      (History.fetchRecords History.initialState (Except.error realErr)) = true ∧
    History.showsEmpty
      (History.fetchRecords History.initialState (Except.error realErr)) = true := by
  decide

/-- Claim C9, amended: the loading indicator, the empty-list message and the
populated list are pairwise exclusive display modes, but the error display is
independent of them: a failed fetch with a non-empty message shows the error
display together with the empty-list message. -/
theorem display_modes_amended (s : History.State) (e : StoreErr)
    (hmsg : errMessage e ("Failed to load history") ≠ "") :
    (History.showsLoading s = true → History.showsEmpty s = false) ∧
    (History.showsLoading s = true → History.showsList s = false) ∧
    (History.showsEmpty s = true → History.showsList s = false) ∧
    (History.showsError
        (History.fetchRecords History.initialState (Except.error e)) = true ∧
      History.showsEmpty
        (History.fetchRecords History.initialState (Except.error e)) = true) := by
  refine ⟨?_, ?_, ?_, ?_, ?_⟩
  · intro h
    simp only [History.showsLoading, Bool.and_eq_true] at h
    simp [History.showsEmpty, h.1, h.2]
  · intro h
    simp only [History.showsLoading, Bool.and_eq_true] at h
    simp [History.showsList, h.1, h.2]
  · intro h
    simp only [History.showsEmpty, Bool.and_eq_true] at h
    simp [History.showsList, h.1.1, h.1.2, h.2]
  · simp only [History.showsError, History.fetchRecords, History.initialState]
    simp [bne_iff_ne, hmsg]
  · simp [History.showsEmpty, History.fetchRecords, History.initialState]

theorem display_modes_amended_witness :
    errMessage realErr ("Failed to load history") ≠ "" ∧
    History.showsLoading History.initialState = true ∧
    History.showsEmpty History.initialState = false ∧
    History.showsError
      (History.fetchRecords History.initialState (Except.error realErr)) = true ∧
    History.showsEmpty
      (History.fetchRecords History.initialState (Except.error realErr)) = true := by
  have h := display_modes_amended History.initialState realErr (by decide)
  exact ⟨by decide, by decide, h.1 (by decide), h.2.2.2.1, h.2.2.2.2⟩

end EchoNote
